import Mathlib

/-!
Shallow embedding of the google-maps-mcp-cloudrun server core
(src/index.js and the GoogleMapsService adapter), together with
proofs about the rate limiter, the tool dispatcher, route comparison,
traffic classification and cost estimation.

Numbers manipulated by the JavaScript source are embedded as `Int`
(counts, timestamps, metres, seconds) or `Rat` (derived quantities such
as ratios and currency amounts); the few places where IEEE special
values (NaN, ±∞) can arise are modelled explicitly via `JsNum`.
-/

namespace GMaps

/-! ## Rate limiter (src/index.js, lines 16–34)

`const RATE_LIMIT = 50; const WINDOW = 60*60*1000;`
`checkRateLimit(ip)` reads the entry for `ip` from the `requestCounts`
map (or a fresh `{count: 0, window: now}`), resets it to
`{count: 1, window: now}` when `now - count.window > WINDOW`, otherwise
increments `count`, stores it back and returns `count <= RATE_LIMIT`.

We embed the per-identity behaviour: the map entry for one ip is an
`Option RateWindow` (`none` = no entry yet), and `checkRateLimit`
returns the admission boolean together with the entry stored back. -/

def RATE_LIMIT : Nat := 50

def WINDOW : Nat := 60 * 60 * 1000

structure RateWindow where
  count : Nat
  window : Nat
deriving Repr, DecidableEq

def checkRateLimit (now : Nat) (entry : Option RateWindow) : Bool × RateWindow :=
  let c := entry.getD ⟨0, now⟩
  let c' : RateWindow :=
    if now - c.window > WINDOW then ⟨1, now⟩ else ⟨c.count + 1, c.window⟩
  (c'.count ≤ RATE_LIMIT, c')

/-- The admission results of a sequence of calls for one identity,
threading the stored entry exactly as the `requestCounts` map does. -/
def runAdmits (st : Option RateWindow) : List Nat → List Bool
  | [] => []
  | t :: ts => (checkRateLimit t st).1 :: runAdmits (some (checkRateLimit t st).2) ts

/-- The entry stored for one identity after a sequence of calls. -/
def admitFold (st : Option RateWindow) : List Nat → Option RateWindow
  | [] => st
  | t :: ts => admitFold (some (checkRateLimit t st).2) ts

/-! ## Tool dispatcher (src/index.js, lines 204–249)

The `CallToolRequestSchema` handler: rate-limit check first — on denial
it `throw`s (escaping the handler, i.e. a transport-level fault) —
then a `try { switch … } catch` that turns any error raised by the
switch (unknown tool) or by a tool handler into a returned content
envelope with `isError: true`. -/

inductive ToolOutcome where
  | thrown (msg : String)
  | envelope (isErr : Bool) (text : String)
deriving Repr, DecidableEq

def knownTools : List String :=
  ["calculate_route", "compare_routes", "get_live_traffic", "estimate_costs"]

/-- The dispatcher boundary, abstracting each tool handler as a
`String → Except String String` (error message or rendered result). -/
def dispatchCallTool (rateLimitOk : Bool) (name : String)
    (handler : String → Except String String) : ToolOutcome :=
  if ¬ rateLimitOk then
    .thrown "Rate limit exceeded. Please try again later."
  else
    let attempt : Except String String :=
      if name ∈ knownTools then handler name
      else .error ("Unknown tool: " ++ name)
    match attempt with
    | .ok text => .envelope false text
    | .error msg => .envelope true ("Error: " ++ msg)

/-! ## Traffic classification (src/index.js, lines 524–532)

`getTrafficCondition` computes `delay / duration` with JavaScript
number semantics.  Division of finite values by zero yields NaN or ±∞,
and `<` on NaN is always false; `JsNum` makes those cases explicit. -/

inductive JsNum where
  | fin (q : ℚ)
  | posInf
  | negInf
  | nan
deriving Repr, DecidableEq

/-- JavaScript division of two finite numbers. -/
def jsDiv (a b : ℚ) : JsNum :=
  if b = 0 then
    if a = 0 then .nan else if 0 < a then .posInf else .negInf
  else .fin (a / b)

/-- JavaScript `<` between a number and a finite literal. -/
def jsLt (a : JsNum) (b : ℚ) : Bool :=
  match a with
  | .fin q => q < b
  | .posInf => false
  | .negInf => true
  | .nan => false

def getTrafficCondition (durationInTraffic duration : ℤ) : String :=
  let delay : ℤ := durationInTraffic - duration
  let ratio : JsNum := jsDiv (delay : ℚ) (duration : ℚ)
  if jsLt ratio (1/10) then "light"
  else if jsLt ratio (3/10) then "moderate"
  else if jsLt ratio (1/2) then "heavy"
  else "severe"

/-! ## Routes and output formatting

`Route` is the value the `GoogleMapsService.calculateRoute` adapter
returns: `{summary, distance (metres), duration (seconds),
durationInTraffic, steps, polyline, warnings}`; a step carries the
step number, the markup-stripped instruction and formatted texts. -/

structure Step where
  stepNumber : Nat
  instruction : String
  distanceText : String
  durationText : String
  maneuver : String
deriving Repr, DecidableEq

structure Route where
  summary : String
  distance : ℤ
  duration : ℤ
  durationInTraffic : ℤ
  steps : List Step
  polyline : String
  warnings : List String
deriving Repr, DecidableEq, Inhabited

/-- `formatDuration` (src/index.js, lines 512–522): `!seconds` is true
exactly for `0` on integer inputs, so the guard is `seconds ≤ 0`. -/
def formatDuration (seconds : ℤ) : String :=
  if seconds = 0 ∨ seconds < 0 then "0m"
  else
    let hours := seconds / 3600
    let minutes := seconds % 3600 / 60
    if hours > 0 then toString hours ++ "h " ++ toString minutes ++ "m"
    else toString minutes ++ "m"

/-- `(meters / 1000).toFixed(1) + " km"`, modelled for the nonnegative
metre counts the provider returns (`toFixed` rounds the tenths digit,
ties toward +∞). -/
def kmText (meters : ℤ) : String :=
  let tenths := (meters + 50) / 100
  toString (tenths / 10) ++ "." ++ toString (tenths % 10) ++ " km"

/-! ## Route comparison (src/index.js, lines 534–569)

`findBestRoute` and `findFastestRoute` run the same
`routes.reduce((best, current, index) => current.durationInTraffic <
best.route.durationInTraffic ? {route: current, index, label:
labels[index]} : best, {route: routes[0], index: 0, label: labels[0]})`;
`findShortestRoute` runs it with `distance` as the key.  `reducePick`
embeds that reduce, with the element index threaded explicitly. -/

structure Pick where
  route : Route
  index : Nat
  label : String
deriving Repr, DecidableEq

def pickFoldFrom (key : Route → ℤ) (labels : List String) (best : Pick) (i : Nat) :
    List Route → Pick
  | [] => best
  | r :: rs =>
    pickFoldFrom key labels
      (if key r < key best.route then ⟨r, i, labels.getD i ""⟩ else best) (i + 1) rs

def reducePick (key : Route → ℤ) (routes : List Route) (labels : List String) : Pick :=
  pickFoldFrom key labels ⟨routes.headD default, 0, labels.headD ""⟩ 0 routes

structure BestRoute where
  recommended : Pick
  reason : String
  timeSaved : ℤ
deriving Repr, DecidableEq

def findBestRoute (routes : List Route) (labels : List String) : BestRoute :=
  let fastest := reducePick (fun r => r.durationInTraffic) routes labels
  { recommended := fastest
    reason := "Fastest travel time considering current traffic conditions"
    timeSaved := (routes.headD default).durationInTraffic - fastest.route.durationInTraffic }

structure LabeledDuration where
  label : String
  durationText : String
deriving Repr, DecidableEq

def findFastestRoute (routes : List Route) (labels : List String) : LabeledDuration :=
  let fastest := reducePick (fun r => r.durationInTraffic) routes labels
  ⟨fastest.label, formatDuration fastest.route.durationInTraffic⟩

structure LabeledDistance where
  label : String
  distanceText : String
deriving Repr, DecidableEq

def findShortestRoute (routes : List Route) (labels : List String) : LabeledDistance :=
  let shortest := reducePick (fun r => r.distance) routes labels
  ⟨shortest.label, kmText shortest.route.distance⟩

/-! ## Cost estimation (src/index.js, lines 445–509) -/

/-- ECMAScript `Math.round`: round half toward +∞. -/
def jsRound (q : ℚ) : ℤ := ⌊q + 1/2⌋

/-- Modelled from the spec: "rounded to 2 decimal places using standard
round-half-away-from-zero" (§4.3 Contract B) — the spec-side rounding,
stated here only to compare it with the code's `Math.round`. -/
def specRoundHalfAwayFromZero (q : ℚ) : ℤ :=
  if 0 ≤ q then ⌊q + 1/2⌋ else -⌊-q + 1/2⌋

/-- The `vehicleOptions` object of an `estimate_costs` call; `none`
models an absent field. -/
structure VehicleOptions where
  fuelEfficiency : Option ℚ
  fuelPrice : Option ℚ
deriving Repr, DecidableEq

/-- JavaScript `v || d` on an optional numeric field: `undefined` and
`0` are falsy and fall back to the default. -/
def jsNumOrDefault (v : Option ℚ) (d : ℚ) : ℚ :=
  match v with
  | none => d
  | some x => if x = 0 then d else x

structure CostAmounts where
  fuelAmount : ℚ
  tollAmount : ℚ
  totalAmount : ℚ
deriving Repr, DecidableEq

/-- The arithmetic of `handleEstimateCosts` (lines 455–477) after the
two `||` defaults have been applied: each amount is
`Math.round(x * 100) / 100`. -/
def estimateAmountsCore (distanceMeters fuelEfficiency fuelPrice : ℚ) : CostAmounts :=
  let distanceKm := distanceMeters / 1000
  let fuelNeeded := distanceKm / 100 * fuelEfficiency
  let fuelCost := fuelNeeded * fuelPrice
  let tollCost := distanceKm * (5/100)
  { fuelAmount := (jsRound (fuelCost * 100) : ℚ) / 100
    tollAmount := (jsRound (tollCost * 100) : ℚ) / 100
    totalAmount := (jsRound ((fuelCost + tollCost) * 100) : ℚ) / 100 }

def estimateCostAmounts (distanceMeters : ℤ) (vo : VehicleOptions) : CostAmounts :=
  estimateAmountsCore (distanceMeters : ℚ)
    (jsNumOrDefault vo.fuelEfficiency 8) (jsNumOrDefault vo.fuelPrice (3/2))

/-! ## Tool handlers and the provider boundary

A handler's interaction with `googleMaps.calculateRoute` is modelled by
passing the provider as a function and returning, next to the handler's
result, the list of queries actually issued to it. -/

/-- JavaScript `s.trim()`: strip leading and trailing whitespace. -/
def jsTrim (s : String) : String :=
  ⟨((s.data.dropWhile Char.isWhitespace).reverse.dropWhile Char.isWhitespace).reverse⟩

structure ProviderQuery where
  origin : String
  destination : String
  waypoints : List String
deriving Repr, DecidableEq

/-- The `result.route` object shaped by `handleCalculateRoute`
(src/index.js, lines 269–299). -/
structure RoutePayload where
  summary : String
  distanceMeters : ℤ
  distanceText : String
  durationSeconds : ℤ
  durationText : String
  durationInTrafficSeconds : ℤ
  trafficDelaySeconds : ℤ
  steps : List Step
  warnings : List String
  polyline : String
deriving Repr, DecidableEq

/-- `handleCalculateRoute` (src/index.js, lines 252–309): validates
origin/destination (`!origin?.trim() || !destination?.trim()` throws
before any provider call), trims the waypoints dropping empty ones,
issues one provider call and shapes the returned route, keeping only
`route.steps?.slice(0, 8)`. -/
def handleCalculateRoute (origin destination : String) (waypoints : List String)
    (provider : ProviderQuery → Except String Route) :
    Except String RoutePayload × List ProviderQuery :=
  if jsTrim origin = "" ∨ jsTrim destination = "" then
    (.error "Origin and destination are required and cannot be empty", [])
  else
    let q : ProviderQuery :=
      ⟨jsTrim origin, jsTrim destination, (waypoints.map jsTrim).filter (fun w => w ≠ "")⟩
    match provider q with
    | .error e => (.error e, [q])
    | .ok route =>
      (.ok { summary := route.summary
             distanceMeters := route.distance
             distanceText := kmText route.distance
             durationSeconds := route.duration
             durationText := formatDuration route.duration
             durationInTrafficSeconds := route.durationInTraffic
             trafficDelaySeconds := route.durationInTraffic - route.duration
             steps := route.steps.take 8
             warnings := route.warnings
             polyline := route.polyline }, [q])

structure CostResult where
  costs : CostAmounts
  fuelEfficiencyUsed : ℚ
  fuelPriceUsed : ℚ
deriving Repr, DecidableEq

/-- `handleEstimateCosts` (src/index.js, lines 445–509): no argument
validation at all — it calls the provider with origin/destination as
given, applies the `||` defaults to the vehicle options and computes
the rounded amounts. -/
def handleEstimateCosts (origin destination : String) (vo : VehicleOptions)
    (provider : ProviderQuery → Except String Route) :
    Except String CostResult × List ProviderQuery :=
  let q : ProviderQuery := ⟨origin, destination, []⟩
  match provider q with
  | .error e => (.error e, [q])
  | .ok route =>
    (.ok { costs := estimateCostAmounts route.distance vo
           fuelEfficiencyUsed := jsNumOrDefault vo.fuelEfficiency 8
           fuelPriceUsed := jsNumOrDefault vo.fuelPrice (3/2) }, [q])

/-! ## Concrete data used to evaluate the theorems -/

def sampleStep (n : Nat) : Step :=
  ⟨n, "Turn left onto Main St", "1 km", "2 mins", "turn-left"⟩

/-- A provider route with ten steps and a 100 km distance. -/
def routeTenSteps : Route :=
  ⟨"I-95 N", 100000, 3600, 3960, (List.range 10).map (fun n => sampleStep (n + 1)),
   "poly", ["toll road"]⟩

def routeA : Route := ⟨"A", 5000, 600, 900, [], "pA", []⟩

def routeB : Route := ⟨"B", 4000, 600, 900, [], "pB", []⟩

/-- A pick satisfying: it points at an actual entry, its key is the
minimum, and every strictly earlier entry has a strictly larger key
(so among equal minima the lowest index wins). -/
def FirstMinPick (key : Route → ℤ) (routes : List Route) (labels : List String)
    (p : Pick) : Prop :=
  ∃ h : p.index < routes.length,
    routes.get ⟨p.index, h⟩ = p.route
      ∧ p.label = labels.getD p.index ""
      ∧ (∀ j (hj : j < routes.length), key p.route ≤ key (routes.get ⟨j, hj⟩))
      ∧ (∀ j (hj : j < routes.length), j < p.index → key p.route < key (routes.get ⟨j, hj⟩))

/-! ## Lemmas: rate limiter -/

theorem checkRateLimit_none (t : Nat) : checkRateLimit t none = (true, ⟨1, t⟩) := by
  simp [checkRateLimit, RATE_LIMIT]

theorem checkRateLimit_within (t c t0 : Nat) (h : t - t0 ≤ WINDOW) :
    checkRateLimit t (some ⟨c, t0⟩) = (decide (c + 1 ≤ RATE_LIMIT), ⟨c + 1, t0⟩) := by
  simp only [checkRateLimit, Option.getD]
  rw [if_neg (by omega)]

theorem checkRateLimit_rollover (t c t0 : Nat) (h : t - t0 > WINDOW) :
    checkRateLimit t (some ⟨c, t0⟩) = (true, ⟨1, t⟩) := by
  simp only [checkRateLimit, Option.getD]
  rw [if_pos h]
  rfl

theorem runAdmits_within (t0 : Nat) :
    ∀ (ts : List Nat) (c : Nat), (∀ t ∈ ts, t - t0 ≤ WINDOW) →
      runAdmits (some ⟨c, t0⟩) ts
        = (List.range ts.length).map (fun i => decide (c + i + 1 ≤ RATE_LIMIT))
  | [], _, _ => rfl
  | t :: ts, c, h => by
    rw [runAdmits, checkRateLimit_within t c t0 (h t (List.mem_cons_self t ts))]
    rw [runAdmits_within t0 ts (c + 1) (fun u hu => h u (List.mem_cons_of_mem t hu))]
    simp only [List.length_cons, List.range_succ_eq_map, List.map_cons, List.map_map]
    refine congrArg₂ _ (decide_eq_decide.mpr (by omega)) ?_
    exact List.map_congr_left fun a _ => decide_eq_decide.mpr (by omega)

theorem admitFold_within (t0 : Nat) :
    ∀ (ts : List Nat) (c : Nat), (∀ t ∈ ts, t - t0 ≤ WINDOW) →
      admitFold (some ⟨c, t0⟩) ts = some ⟨c + ts.length, t0⟩
  | [], _, _ => rfl
  | t :: ts, c, h => by
    rw [admitFold, checkRateLimit_within t c t0 (h t (List.mem_cons_self t ts))]
    rw [admitFold_within t0 ts (c + 1) (fun u hu => h u (List.mem_cons_of_mem t hu))]
    simp only [List.length_cons]
    have : c + 1 + ts.length = c + (ts.length + 1) := by omega
    rw [this]

/-! ## C1: rate-limit window behaviour -/

/-- C1 counterexample: the claim says a window whose age has *reached* W is
reset by the next admit call (count 1, allowed).  With the stored window
started at time 0 and count `RATE_LIMIT`, the admit call at time `WINDOW`
(age exactly W) does not reset: the count increments to 51 and the call is
denied, because the code resets only when `now - window > WINDOW` strictly. -/
theorem checkRateLimit_age_exactly_window_cex :
    checkRateLimit WINDOW (some ⟨RATE_LIMIT, 0⟩) = (false, ⟨RATE_LIMIT + 1, 0⟩) := by
  decide

/-- C1 (amended): for any identity, calls at times within W of the stored
window start simply increment the count, so from a stored count `c` the
i-th further call is allowed iff `c + i + 1 ≤ RATE_LIMIT` — in particular
the first 50 calls of a fresh window are allowed and later ones denied; a
first call creates the window with count 1; and a call whose age *strictly
exceeds* W resets the window to count 1 at the new time and is allowed,
after which 50 allowed calls are again possible. -/
theorem rateLimiter_window_behavior (c t0 : Nat) (ts : List Nat)
    (hts : ∀ t ∈ ts, t - t0 ≤ WINDOW) (t' k : Nat) (ht' : t' - t0 > WINDOW) :
    runAdmits (some ⟨c, t0⟩) ts
        = (List.range ts.length).map (fun i => decide (c + i + 1 ≤ RATE_LIMIT))
      ∧ admitFold (some ⟨c, t0⟩) ts = some ⟨c + ts.length, t0⟩
      ∧ checkRateLimit t0 none = (true, ⟨1, t0⟩)
      ∧ checkRateLimit t' (some ⟨k, t0⟩) = (true, ⟨1, t'⟩) :=
  ⟨runAdmits_within t0 ts c hts, admitFold_within t0 ts c hts,
   checkRateLimit_none t0, checkRateLimit_rollover t' k t0 ht'⟩

theorem rateLimiter_window_behavior_witness :
    runAdmits (some ⟨1, 0⟩) [10, 20]
        = (List.range 2).map (fun i => decide (1 + i + 1 ≤ RATE_LIMIT))
      ∧ admitFold (some ⟨1, 0⟩) [10, 20] = some ⟨3, 0⟩
      ∧ checkRateLimit 0 none = (true, ⟨1, 0⟩)
      ∧ checkRateLimit 3600001 (some ⟨50, 0⟩) = (true, ⟨1, 3600001⟩) :=
  rateLimiter_window_behavior 1 0 [10, 20] (by decide) 3600001 50 (by decide)

/-! ## C2: dispatcher error shaping -/

/-- C2 counterexample: when the rate limiter denies, the
`CallToolRequestSchema` handler throws *before* its try/catch, so the
outcome is a thrown (transport-level) fault, not an `isError` content
envelope as the claim requires. -/
theorem dispatch_rate_limited_thrown_cex :
    dispatchCallTool false "calculate_route" (fun _ => Except.ok "result")
      = ToolOutcome.thrown "Rate limit exceeded. Please try again later." := by
  decide

/-- C2 (amended): errors raised inside the dispatch switch — unknown tool
names and tool-handler failures — are caught at the dispatcher boundary
and returned as `isError` content envelopes, and successful handlers
yield non-error envelopes; but a rate-limit denial is thrown before the
try/catch as a transport-level fault (independent of the handler, which
is never invoked). -/
theorem dispatch_error_shaping (name : String) (handler : String → Except String String) :
    (∀ h2 : String → Except String String,
        dispatchCallTool false name handler = dispatchCallTool false name h2)
      ∧ dispatchCallTool false name handler
          = ToolOutcome.thrown "Rate limit exceeded. Please try again later."
      ∧ (name ∉ knownTools →
          dispatchCallTool true name handler
            = ToolOutcome.envelope true ("Error: " ++ ("Unknown tool: " ++ name)))
      ∧ (∀ msg, name ∈ knownTools → handler name = Except.error msg →
          dispatchCallTool true name handler = ToolOutcome.envelope true ("Error: " ++ msg))
      ∧ (∀ text, name ∈ knownTools → handler name = Except.ok text →
          dispatchCallTool true name handler = ToolOutcome.envelope false text) := by
  refine ⟨fun h2 => rfl, rfl, ?_, ?_, ?_⟩
  · intro hn
    simp [dispatchCallTool, hn]
  · intro msg hm he
    simp [dispatchCallTool, hm, he]
  · intro text hm ho
    simp [dispatchCallTool, hm, ho]

theorem dispatch_error_shaping_witness :
    dispatchCallTool false "estimate_costs" (fun _ => Except.error "boom")
        = ToolOutcome.thrown "Rate limit exceeded. Please try again later."
      ∧ dispatchCallTool true "estimate_costs" (fun _ => Except.error "boom")
        = ToolOutcome.envelope true ("Error: " ++ "boom")
      ∧ dispatchCallTool true "bogus_tool" (fun _ => Except.ok "x")
        = ToolOutcome.envelope true ("Error: " ++ ("Unknown tool: " ++ "bogus_tool")) :=
  ⟨(dispatch_error_shaping "estimate_costs" (fun _ => Except.error "boom")).2.1,
   (dispatch_error_shaping "estimate_costs" (fun _ => Except.error "boom")).2.2.2.1
     "boom" (by decide) rfl,
   (dispatch_error_shaping "bogus_tool" (fun _ => Except.ok "x")).2.2.1 (by decide)⟩

/-! ## Lemmas: the comparison reduce -/

/-- Invariant of the `reduce` underlying the comparison helpers: the
result's key never exceeds the initial pick's key nor any processed
entry's key; the result is the initial pick or one of the entries (with
its index and label); and any entry or initial pick strictly earlier
than the result's index has a strictly larger key. -/
theorem pickFoldFrom_spec (key : Route → ℤ) (labels : List String) :
    ∀ (rs : List Route) (best : Pick) (i : Nat), best.index ≤ i →
      key (pickFoldFrom key labels best i rs).route ≤ key best.route
        ∧ (∀ j (hj : j < rs.length),
            key (pickFoldFrom key labels best i rs).route ≤ key (rs.get ⟨j, hj⟩))
        ∧ (pickFoldFrom key labels best i rs = best
            ∨ ∃ j, ∃ hj : j < rs.length,
                rs.get ⟨j, hj⟩ = (pickFoldFrom key labels best i rs).route
                  ∧ (pickFoldFrom key labels best i rs).index = i + j
                  ∧ (pickFoldFrom key labels best i rs).label = labels.getD (i + j) "")
        ∧ (best.index < (pickFoldFrom key labels best i rs).index →
            key (pickFoldFrom key labels best i rs).route < key best.route)
        ∧ (∀ j (hj : j < rs.length), i + j < (pickFoldFrom key labels best i rs).index →
            key (pickFoldFrom key labels best i rs).route < key (rs.get ⟨j, hj⟩))
  | [], best, i, hbi => by
    refine ⟨le_refl _, ?_, Or.inl rfl, ?_, ?_⟩
    · intro j hj
      exact absurd hj (Nat.not_lt_zero j)
    · intro h
      exact absurd h (lt_irrefl _)
    · intro j hj
      exact absurd hj (Nat.not_lt_zero j)
  | r :: rs, best, i, hbi => by
    by_cases hlt : key r < key best.route
    · have hstep : pickFoldFrom key labels best i (r :: rs)
          = pickFoldFrom key labels ⟨r, i, labels.getD i ""⟩ (i + 1) rs := by
        rw [pickFoldFrom, if_pos hlt]
      obtain ⟨H1, H2, H3, H4, H5⟩ :=
        pickFoldFrom_spec key labels rs ⟨r, i, labels.getD i ""⟩ (i + 1) (Nat.le_succ i)
      rw [hstep]
      refine ⟨le_of_lt (lt_of_le_of_lt H1 hlt), ?_, ?_, ?_, ?_⟩
      · intro j hj
        rcases j with _ | j
        · exact H1
        · exact H2 j (Nat.lt_of_succ_lt_succ hj)
      · rcases H3 with h | ⟨j, hj, hroute, hindex, hlabel⟩
        · refine Or.inr ⟨0, Nat.succ_pos _, ?_, ?_, ?_⟩ <;> (rw [h]; rfl)
        · refine Or.inr ⟨j + 1, Nat.succ_lt_succ hj, hroute, ?_, ?_⟩
          · rw [hindex]; omega
          · rw [hlabel]
            have e : i + (j + 1) = i + 1 + j := by omega
            rw [e]
      · intro _
        exact lt_of_le_of_lt H1 hlt
      · intro j hj hidx
        rcases j with _ | j
        · exact H4 hidx
        · exact H5 j (Nat.lt_of_succ_lt_succ hj) (by omega)
    · have hstep : pickFoldFrom key labels best i (r :: rs)
          = pickFoldFrom key labels best (i + 1) rs := by
        rw [pickFoldFrom, if_neg hlt]
      obtain ⟨H1, H2, H3, H4, H5⟩ :=
        pickFoldFrom_spec key labels rs best (i + 1) (le_trans hbi (Nat.le_succ i))
      rw [hstep]
      have hler : key best.route ≤ key r := not_lt.mp hlt
      refine ⟨H1, ?_, ?_, H4, ?_⟩
      · intro j hj
        rcases j with _ | j
        · exact le_trans H1 hler
        · exact H2 j (Nat.lt_of_succ_lt_succ hj)
      · rcases H3 with h | ⟨j, hj, hroute, hindex, hlabel⟩
        · exact Or.inl h
        · refine Or.inr ⟨j + 1, Nat.succ_lt_succ hj, hroute, ?_, ?_⟩
          · rw [hindex]; omega
          · rw [hlabel]
            have e : i + (j + 1) = i + 1 + j := by omega
            rw [e]
      · intro j hj hidx
        rcases j with _ | j
        · exact lt_of_lt_of_le (H4 (Nat.lt_of_le_of_lt hbi hidx)) hler
        · exact H5 j (Nat.lt_of_succ_lt_succ hj) (by omega)

theorem reducePick_firstMin (key : Route → ℤ) (routes : List Route) (labels : List String)
    (hne : routes ≠ []) : FirstMinPick key routes labels (reducePick key routes labels) := by
  match routes, hne with
  | r0 :: rest, _ =>
    obtain ⟨H1, H2, H3, H4, H5⟩ := pickFoldFrom_spec key labels (r0 :: rest)
      ⟨(r0 :: rest).headD default, 0, labels.headD ""⟩ 0 (le_refl 0)
    show FirstMinPick key (r0 :: rest) labels
      (pickFoldFrom key labels ⟨(r0 :: rest).headD default, 0, labels.headD ""⟩ 0 (r0 :: rest))
    rcases H3 with h | ⟨j, hj, hroute, hindex, hlabel⟩
    · rw [h] at H2 H5 ⊢
      refine ⟨Nat.succ_pos _, rfl, ?_, H2, ?_⟩
      · cases labels <;> rfl
      · intro j hj hj0
        exact absurd hj0 (Nat.not_lt_zero j)
    · have hb : (pickFoldFrom key labels ⟨(r0 :: rest).headD default, 0, labels.headD ""⟩ 0
          (r0 :: rest)).index < (r0 :: rest).length := by omega
      refine ⟨hb, ?_, ?_, H2, ?_⟩
      · rw [show (⟨_, hb⟩ : Fin (r0 :: rest).length) = ⟨j, hj⟩ by
          simp only [Fin.mk.injEq]; omega]
        exact hroute
      · rw [hlabel, hindex]
      · intro j' hj' hlt
        exact H5 j' hj' (by omega)

/-! ## C3: deterministic comparison, first-seen wins ties -/

/-- C3: the comparison helpers are deterministic: the recommended,
fastest and shortest picks each point at the first-listed entry
attaining the minimum key (`durationInTraffic` for recommended/fastest,
`distance` for shortest) — so equal minima are won by the lowest index —
and on a single entry all three return that entry. -/
theorem compare_routes_deterministic (routes : List Route) (labels : List String)
    (hne : routes ≠ []) :
    FirstMinPick (fun r => r.durationInTraffic) routes labels
        (findBestRoute routes labels).recommended
      ∧ FirstMinPick (fun r => r.distance) routes labels
          (reducePick (fun r => r.distance) routes labels)
      ∧ (findFastestRoute routes labels).label
          = (findBestRoute routes labels).recommended.label
      ∧ (findShortestRoute routes labels).label
          = (reducePick (fun r => r.distance) routes labels).label
      ∧ (∀ r lab,
          findBestRoute [r] [lab]
              = ⟨⟨r, 0, lab⟩, "Fastest travel time considering current traffic conditions", 0⟩
            ∧ findFastestRoute [r] [lab] = ⟨lab, formatDuration r.durationInTraffic⟩
            ∧ findShortestRoute [r] [lab] = ⟨lab, kmText r.distance⟩) := by
  refine ⟨reducePick_firstMin _ routes labels hne, reducePick_firstMin _ routes labels hne,
          rfl, rfl, ?_⟩
  intro r lab
  have hsingle : ∀ key : Route → ℤ, reducePick key [r] [lab] = ⟨r, 0, lab⟩ := by
    intro key
    simp [reducePick, pickFoldFrom]
  exact ⟨by simp [findBestRoute, hsingle], by simp [findFastestRoute, hsingle],
         by simp [findShortestRoute, hsingle]⟩

theorem compare_routes_deterministic_witness :
    ([routeA, routeB] ≠ ([] : List Route))
      ∧ FirstMinPick (fun r => r.durationInTraffic) [routeA, routeB] ["R0", "R1"]
          (findBestRoute [routeA, routeB] ["R0", "R1"]).recommended
      ∧ FirstMinPick (fun r => r.distance) [routeA, routeB] ["R0", "R1"]
          (reducePick (fun r => r.distance) [routeA, routeB] ["R0", "R1"]) :=
  ⟨by decide,
   (compare_routes_deterministic [routeA, routeB] ["R0", "R1"] (by decide)).1,
   (compare_routes_deterministic [routeA, routeB] ["R0", "R1"] (by decide)).2.1⟩

/-! ## C6: zero-duration traffic classification -/

/-- C6 counterexample: the claim requires an InvalidInput failure on a
zero duration, but `getTrafficCondition` has no failure path: at
durationInTraffic 100 and duration 0 it classifies (the ratio is +∞,
every `<` test is false) and returns "severe". -/
theorem trafficCondition_zero_duration_cex :
    getTrafficCondition 100 0 = "severe" := by
  simp only [getTrafficCondition, jsDiv, jsLt]; norm_num

/-- C6 (amended): a zero duration is not rejected; the JavaScript
division yields NaN (zero delay) or ±∞, `<` on NaN and +∞ is always
false, so a route with nonnegative delay classifies as "severe" and one
with negative delay as "light". -/
theorem trafficCondition_zero_duration (dIT : ℤ) :
    (0 ≤ dIT → getTrafficCondition dIT 0 = "severe")
      ∧ (dIT < 0 → getTrafficCondition dIT 0 = "light") := by
  constructor
  · intro h
    rcases eq_or_lt_of_le h with h0 | hpos
    · rw [← h0]
      simp only [getTrafficCondition, jsDiv, jsLt]
      norm_num
    · simp [getTrafficCondition, jsDiv, jsLt, hpos.ne', hpos]
  · intro h
    simp [getTrafficCondition, jsDiv, jsLt, h.ne, h.asymm]

theorem trafficCondition_zero_duration_witness :
    ((0:ℤ) ≤ 360 ∧ getTrafficCondition 360 0 = "severe")
      ∧ ((-5:ℤ) < 0 ∧ getTrafficCondition (-5) 0 = "light") :=
  ⟨⟨by norm_num, (trafficCondition_zero_duration 360).1 (by norm_num)⟩,
   ⟨by norm_num, (trafficCondition_zero_duration (-5)).2 (by norm_num)⟩⟩

/-! ## C7: traffic thresholds for positive duration -/

/-- C7: for a positive duration the classification of
ratio = (durationInTraffic − duration) / duration follows the spec's
table with strict upper bounds: light below 0.1, moderate on [0.1,0.3),
heavy on [0.3,0.5), severe from 0.5 — and the 3600 s / 3960 s boundary
instance (ratio exactly 0.1) classifies as "moderate", not "light". -/
theorem trafficCondition_thresholds (dIT dur : ℤ) (h : 0 < dur) :
    (((dIT - dur : ℤ) : ℚ) / (dur : ℚ) < 1/10 → getTrafficCondition dIT dur = "light")
      ∧ (1/10 ≤ ((dIT - dur : ℤ) : ℚ) / (dur : ℚ) →
          ((dIT - dur : ℤ) : ℚ) / (dur : ℚ) < 3/10 →
          getTrafficCondition dIT dur = "moderate")
      ∧ (3/10 ≤ ((dIT - dur : ℤ) : ℚ) / (dur : ℚ) →
          ((dIT - dur : ℤ) : ℚ) / (dur : ℚ) < 1/2 →
          getTrafficCondition dIT dur = "heavy")
      ∧ (1/2 ≤ ((dIT - dur : ℤ) : ℚ) / (dur : ℚ) →
          getTrafficCondition dIT dur = "severe")
      ∧ getTrafficCondition 3960 3600 = "moderate" := by
  have hdz : ((dur : ℤ) : ℚ) ≠ 0 := by exact_mod_cast h.ne'
  have hkey : getTrafficCondition dIT dur
      = if ((dIT - dur : ℤ) : ℚ) / (dur : ℚ) < 1/10 then "light"
        else if ((dIT - dur : ℤ) : ℚ) / (dur : ℚ) < 3/10 then "moderate"
        else if ((dIT - dur : ℤ) : ℚ) / (dur : ℚ) < 1/2 then "heavy"
        else "severe" := by
    simp only [getTrafficCondition, jsDiv, jsLt, if_neg hdz, decide_eq_true_eq]
  refine ⟨?_, ?_, ?_, ?_, ?_⟩
  · intro h1
    rw [hkey, if_pos h1]
  · intro h1 h2
    rw [hkey, if_neg (not_lt.mpr h1), if_pos h2]
  · intro h1 h2
    rw [hkey, if_neg (not_lt.mpr (le_trans (by norm_num : (1:ℚ)/10 ≤ 3/10) h1)),
        if_neg (not_lt.mpr h1), if_pos h2]
  · intro h1
    rw [hkey, if_neg (not_lt.mpr (le_trans (by norm_num : (1:ℚ)/10 ≤ 1/2) h1)),
        if_neg (not_lt.mpr (le_trans (by norm_num : (3:ℚ)/10 ≤ 1/2) h1)),
        if_neg (not_lt.mpr h1)]
  · simp only [getTrafficCondition, jsDiv, jsLt]
    norm_num

theorem trafficCondition_thresholds_witness :
    (0 : ℤ) < 3600 ∧ getTrafficCondition 3960 3600 = "moderate" :=
  ⟨by norm_num,
   (trafficCondition_thresholds 3960 3600 (by norm_num)).2.1
     (by push_cast; norm_num) (by push_cast; norm_num)⟩

/-! ## Lemmas: rounding -/

theorem specRound_nonneg (q : ℚ) (h : 0 ≤ q) : specRoundHalfAwayFromZero q = jsRound q := by
  rw [specRoundHalfAwayFromZero, if_pos h]
  rfl

/-! ## C4: cost-estimate arithmetic -/

/-- C4 counterexample: the claim quantifies over every fuelEfficiency and
fuelPrice; with supplied fuelEfficiency −5 and fuelPrice 0.5 on a 1 km
route the code's fuel amount is −0.02 (ECMAScript `Math.round` takes
−2.5 half toward +∞ to −2) while round-half-away-from-zero prescribes
−0.03. -/
theorem estimate_costs_rounding_cex :
    (estimateCostAmounts 1000 ⟨some (-5), some (1/2)⟩).fuelAmount = -(1/50)
      ∧ (specRoundHalfAwayFromZero ((1000:ℚ) / 1000 / 100 * (-5) * (1/2) * 100) : ℚ) / 100
          = -(3/100)
      ∧ (-(1/50) : ℚ) ≠ -(3/100) := by
  refine ⟨?_, ?_, by norm_num⟩
  · norm_num [estimateCostAmounts, estimateAmountsCore, jsNumOrDefault, jsRound]
  · norm_num [specRoundHalfAwayFromZero]

/-- C4 (amended): for nonnegative distance, fuel efficiency and fuel
price the three amounts equal the spec formula
(fuel = distanceKm/100·fe·fp, toll = distanceKm·0.05, total = sum)
rounded to 2 decimals half-away-from-zero — on nonnegative amounts the
code's `Math.round` (half toward +∞) coincides with it — and the
100 km / 8.0 / 1.50 instance yields 12.00, 5.00, 17.00. -/
theorem estimate_costs_formula (d fe fp : ℚ) (hd : 0 ≤ d) (hfe : 0 ≤ fe) (hfp : 0 ≤ fp) :
    (estimateAmountsCore d fe fp).fuelAmount
        = (specRoundHalfAwayFromZero (d / 1000 / 100 * fe * fp * 100) : ℚ) / 100
      ∧ (estimateAmountsCore d fe fp).tollAmount
        = (specRoundHalfAwayFromZero (d / 1000 * (5/100) * 100) : ℚ) / 100
      ∧ (estimateAmountsCore d fe fp).totalAmount
        = (specRoundHalfAwayFromZero
            ((d / 1000 / 100 * fe * fp + d / 1000 * (5/100)) * 100) : ℚ) / 100
      ∧ estimateAmountsCore 100000 8 (3/2) = ⟨12, 5, 17⟩ := by
  have hkm : (0:ℚ) ≤ d / 1000 := div_nonneg hd (by norm_num)
  have hfc : (0:ℚ) ≤ d / 1000 / 100 * fe * fp :=
    mul_nonneg (mul_nonneg (div_nonneg hkm (by norm_num)) hfe) hfp
  have htc : (0:ℚ) ≤ d / 1000 * (5/100) := mul_nonneg hkm (by norm_num)
  refine ⟨?_, ?_, ?_, ?_⟩
  · rw [specRound_nonneg _ (mul_nonneg hfc (by norm_num))]
    rfl
  · rw [specRound_nonneg _ (mul_nonneg htc (by norm_num))]
    rfl
  · rw [specRound_nonneg _ (mul_nonneg (add_nonneg hfc htc) (by norm_num))]
    rfl
  · norm_num [estimateAmountsCore, jsRound]

theorem estimate_costs_formula_witness :
    ((0:ℚ) ≤ 100000 ∧ (0:ℚ) ≤ 8 ∧ (0:ℚ) ≤ 3/2)
      ∧ estimateAmountsCore 100000 8 (3/2) = ⟨12, 5, 17⟩ :=
  ⟨⟨by norm_num, by norm_num, by norm_num⟩,
   (estimate_costs_formula 100000 8 (3/2) (by norm_num) (by norm_num) (by norm_num)).2.2.2⟩

/-! ## C5: vehicle-option defaults and the missing range check -/

/-- C5 counterexample: fuelEfficiency 100 is far outside the advertised
[3,25] range, yet the handler computes with it — the call returns an ok
cost result (fuel 150.00 on a 100 km route), not an InvalidArgument
error. -/
theorem estimate_costs_out_of_range_cex :
    (handleEstimateCosts "A" "B" ⟨some 100, some (3/2)⟩
        (fun _ => Except.ok routeTenSteps)).1
      = Except.ok ⟨⟨150, 5, 155⟩, 100, 3/2⟩ := by
  norm_num [handleEstimateCosts, estimateCostAmounts, estimateAmountsCore,
    jsNumOrDefault, jsRound, routeTenSteps]

/-- C5 (amended): fuelEfficiency and fuelPrice default to 8.0 and 1.50
when absent (or zero, which is falsy); any nonzero supplied value — in
or out of the advertised ranges — is used as-is, and the handler
performs no range validation: it returns ok whenever the provider call
succeeds. -/
theorem estimate_costs_defaults_not_validated (o dst : String) (vo : VehicleOptions)
    (provider : ProviderQuery → Except String Route) (r : Route)
    (hp : provider ⟨o, dst, []⟩ = Except.ok r) :
    (handleEstimateCosts o dst vo provider).1
        = Except.ok ⟨estimateCostAmounts r.distance vo,
            jsNumOrDefault vo.fuelEfficiency 8, jsNumOrDefault vo.fuelPrice (3/2)⟩
      ∧ (∀ v : ℚ, v ≠ 0 → jsNumOrDefault (some v) 8 = v)
      ∧ (∀ v : ℚ, v ≠ 0 → jsNumOrDefault (some v) (3/2) = v)
      ∧ jsNumOrDefault none 8 = 8
      ∧ jsNumOrDefault none (3/2) = 3/2 := by
  refine ⟨?_, ?_, ?_, rfl, rfl⟩
  · simp [handleEstimateCosts, hp]
  · intro v hv
    simp [jsNumOrDefault, hv]
  · intro v hv
    simp [jsNumOrDefault, hv]

theorem estimate_costs_defaults_not_validated_witness :
    ((fun _ : ProviderQuery => Except.ok (ε := String) routeTenSteps) ⟨"A", "B", []⟩
        = Except.ok routeTenSteps)
      ∧ (handleEstimateCosts "A" "B" ⟨some 100, none⟩
            (fun _ => Except.ok routeTenSteps)).1
          = Except.ok ⟨estimateCostAmounts routeTenSteps.distance ⟨some 100, none⟩,
              jsNumOrDefault (some 100) 8, jsNumOrDefault none (3/2)⟩ :=
  ⟨rfl, (estimate_costs_defaults_not_validated "A" "B" ⟨some 100, none⟩
      (fun _ => Except.ok routeTenSteps) routeTenSteps rfl).1⟩

/-! ## C10: zero vehicle options silently fall back to defaults -/

/-- C10: supplying fuelEfficiency = 0 or fuelPrice = 0 (falsy in
JavaScript) silently replaces them by the defaults 8.0 and 1.50: the
amounts equal those computed with the defaults, and no error is
reported — the handler returns ok whenever the provider succeeds. -/
theorem estimate_costs_zero_falls_back (d : ℤ) (o dst : String)
    (provider : ProviderQuery → Except String Route) (r : Route)
    (hp : provider ⟨o, dst, []⟩ = Except.ok r) :
    estimateCostAmounts d ⟨some 0, some 0⟩ = estimateCostAmounts d ⟨none, none⟩
      ∧ estimateCostAmounts d ⟨some 0, some 0⟩ = estimateAmountsCore (d : ℚ) 8 (3/2)
      ∧ (handleEstimateCosts o dst ⟨some 0, some 0⟩ provider).1
          = Except.ok ⟨estimateAmountsCore (r.distance : ℚ) 8 (3/2), 8, 3/2⟩ := by
  refine ⟨?_, ?_, ?_⟩
  · simp [estimateCostAmounts, jsNumOrDefault]
  · simp [estimateCostAmounts, jsNumOrDefault]
  · simp [handleEstimateCosts, hp, estimateCostAmounts, jsNumOrDefault]

theorem estimate_costs_zero_falls_back_witness :
    ((fun _ : ProviderQuery => Except.ok (ε := String) routeTenSteps) ⟨"A", "B", []⟩
        = Except.ok routeTenSteps)
      ∧ (handleEstimateCosts "A" "B" ⟨some 0, some 0⟩
            (fun _ => Except.ok routeTenSteps)).1
          = Except.ok ⟨estimateAmountsCore (routeTenSteps.distance : ℚ) 8 (3/2), 8, 3/2⟩ :=
  ⟨rfl, (estimate_costs_zero_falls_back 100000 "A" "B" (fun _ => Except.ok routeTenSteps)
      routeTenSteps rfl).2.2⟩

/-! ## C8: empty origin/destination rejected before any provider call -/

/-- C8: a calculate_route call whose origin or destination trims to the
empty string returns the validation error and issues no provider query,
for every provider — the provider-facing state and upstream quota are
untouched. -/
theorem calculate_route_empty_no_provider (o dst : String) (ws : List String)
    (provider : ProviderQuery → Except String Route)
    (h : jsTrim o = "" ∨ jsTrim dst = "") :
    handleCalculateRoute o dst ws provider
      = (Except.error "Origin and destination are required and cannot be empty", []) := by
  rw [handleCalculateRoute, if_pos h]

theorem calculate_route_empty_no_provider_witness :
    (jsTrim "Boston" = "" ∨ jsTrim "   " = "")
      ∧ handleCalculateRoute "Boston" "   " ["w"] (fun _ => Except.ok routeTenSteps)
        = (Except.error "Origin and destination are required and cannot be empty", []) :=
  ⟨Or.inr (by decide),
   calculate_route_empty_no_provider "Boston" "   " ["w"]
     (fun _ => Except.ok routeTenSteps) (Or.inr (by decide))⟩

/-! ## C9: step truncation and field pass-through -/

/-- C9: on a successful calculate_route call the payload keeps at most
the first 8 provider steps (`steps.slice(0, 8)`, a prefix: together
with the dropped remainder it reassembles the provider's list), while
distance, duration, traffic values, warnings and polyline pass through
unchanged. -/
theorem calculate_route_steps_limited (o dst : String) (ws : List String)
    (provider : ProviderQuery → Except String Route) (r : Route)
    (ho : ¬(jsTrim o = "" ∨ jsTrim dst = ""))
    (hp : provider ⟨jsTrim o, jsTrim dst, (ws.map jsTrim).filter (fun w => w ≠ "")⟩
        = Except.ok r) :
    (handleCalculateRoute o dst ws provider).1
        = Except.ok ⟨r.summary, r.distance, kmText r.distance, r.duration,
            formatDuration r.duration, r.durationInTraffic,
            r.durationInTraffic - r.duration, r.steps.take 8, r.warnings, r.polyline⟩
      ∧ (r.steps.take 8).length ≤ 8
      ∧ r.steps.take 8 ++ r.steps.drop 8 = r.steps := by
  refine ⟨?_, ?_, List.take_append_drop 8 r.steps⟩
  · rw [handleCalculateRoute, if_neg ho]
    simp only [hp]
  · rw [List.length_take]
    exact min_le_left _ _

theorem calculate_route_steps_limited_witness :
    (¬(jsTrim "NY" = "" ∨ jsTrim "Boston" = ""))
      ∧ (handleCalculateRoute "NY" "Boston" [] (fun _ => Except.ok routeTenSteps)).1
          = Except.ok ⟨routeTenSteps.summary, routeTenSteps.distance,
              kmText routeTenSteps.distance, routeTenSteps.duration,
              formatDuration routeTenSteps.duration, routeTenSteps.durationInTraffic,
              routeTenSteps.durationInTraffic - routeTenSteps.duration,
              routeTenSteps.steps.take 8, routeTenSteps.warnings, routeTenSteps.polyline⟩
      ∧ (routeTenSteps.steps.take 8).length ≤ 8 :=
  ⟨by decide,
   (calculate_route_steps_limited "NY" "Boston" [] (fun _ => Except.ok routeTenSteps)
      routeTenSteps (by decide) rfl).1,
   (calculate_route_steps_limited "NY" "Boston" [] (fun _ => Except.ok routeTenSteps)
      routeTenSteps (by decide) rfl).2.1⟩

end GMaps
